import Mathlib

/-!
Verification of the structured logging facade (`src/index.ts`).

The repository wires two off-the-shelf loggers (bunyan and winston); the
code that is the repository's own is the winston formatting pipeline:
the `levelMap` table with its `levelMap[level] || level` fallback, the
`format.printf` callback that assembles the JSON record, the
`consoleFormat` used in development mode, the `logWrapper` typed entry
point, and the environment-derived defaults for the service name and the
minimum log level.  We embed these shallowly: JavaScript objects become
ordered association lists with last-write-wins insertion (the semantics
of the object-literal spread), `JSON.stringify` becomes `stringify`, and
the external collaborators (hostname, pid, timestamp, environment) become
explicit parameters.
-/

/-- A JavaScript value as it can appear in a record field: strings,
numbers, objects (an ordered list of key/value pairs), and function
values.  A function value reaches a field only through JavaScript's
prototype-chain property lookup (e.g. `levelMap["toString"]` yields the
inherited `Object.prototype.toString`); `fn s` stands for the inherited
member named `s`.  `JSON.stringify` omits function-valued properties. -/
inductive Json where
  | str : String → Json
  | num : Nat → Json
  | obj : List (String × Json) → Json
  | fn : String → Json
deriving Repr

/-- `JSON.stringify` serializes a property unless its value is a
function (function-valued properties are omitted from the output). -/
def jsonSerializableProp : Json → Bool
  | .fn _ => false
  | _ => true

/-- Escape one character the way `JSON.stringify` does for string values
(quote, backslash and the common control characters). -/
def jsonEscapeChar (c : Char) : String :=
  if c = '"' then "\\\""
  else if c = '\\' then "\\\\"
  else if c = '\n' then "\\n"
  else if c = '\r' then "\\r"
  else if c = '\t' then "\\t"
  else String.singleton c

/-- Escape a whole string for inclusion in a JSON document. -/
def jsonEscape (s : String) : String :=
  String.join (s.data.map jsonEscapeChar)

mutual
/-- `JSON.stringify` with no indentation: the compact single-line
serialization used by the structured-mode formatter.  A bare function
yields no JSON text (`JSON.stringify` returns `undefined` there); that
branch is unreachable in this pipeline, which always serializes an
object literal. -/
def stringify : Json → String
  | .str s => "\"" ++ jsonEscape s ++ "\""
  | .num n => toString n
  | .fn _ => ""
  | .obj kvs => "\x7b" ++ stringifyFields kvs ++ "\x7d"

/-- Serialize the comma-separated field list of a JSON object,
omitting function-valued properties as `JSON.stringify` does. -/
def stringifyFields : List (String × Json) → String
  | [] => ""
  | (k, v) :: rest =>
      if jsonSerializableProp v then
        if rest.any (fun p => jsonSerializableProp p.2) then
          "\"" ++ jsonEscape k ++ "\":" ++ stringify v ++ "," ++ stringifyFields rest
        else
          "\"" ++ jsonEscape k ++ "\":" ++ stringify v
      else stringifyFields rest
end

/-- Insert a key/value pair into a JavaScript object under construction:
if the key is already present its value is overwritten in place,
otherwise the pair is appended.  This is the semantics of evaluating an
object literal field by field, including spread entries. -/
def jsInsert (o : List (String × Json)) (k : String) (v : Json) :
    List (String × Json) :=
  if o.any (fun p => p.1 = k) then
    o.map (fun p => if p.1 = k then (k, v) else p)
  else o ++ [(k, v)]

/-- Evaluate a JavaScript object literal: the listed fields (including
those contributed by a spread) are inserted left to right with
last-write-wins semantics. -/
def jsObj (fields : List (String × Json)) : List (String × Json) :=
  fields.foldl (fun acc p => jsInsert acc p.1 p.2) []

/-- The property names every plain object literal inherits from
`Object.prototype`, so that `levelMap[level]` yields a defined value for
them even though they are not own properties of the table.  All are
function values except `__proto__`, whose accessor returns
`Object.prototype` itself. -/
def objectPrototypeMembers : List String :=
  ["constructor", "hasOwnProperty", "isPrototypeOf", "propertyIsEnumerable",
   "toLocaleString", "toString", "valueOf", "__defineGetter__",
   "__defineSetter__", "__lookupGetter__", "__lookupSetter__", "__proto__"]

/-- JavaScript truthiness of a value read from a property: `undefined`
is modelled by `none` at the call sites; `0` and `""` are falsy;
objects and functions are truthy. -/
def jsTruthy : Json → Bool
  | .str s => s ≠ ""
  | .num n => n ≠ 0
  | .obj _ => true
  | .fn _ => true

/-- The property access `levelMap[level]` on the object literal
`\x7b error: 50, warn: 40, info: 30, debug: 20 \x7d` of `src/index.ts`.
An own property hits the table; any other key walks the prototype
chain: the `Object.prototype` member names yield the inherited member
(`__proto__` yields `Object.prototype` itself, an object with no own
enumerable properties, modelled by its JSON image, the empty object);
every remaining key is `undefined` (`none`). -/
def levelMap (level : String) : Option Json :=
  if level = "error" then some (Json.num 50)
  else if level = "warn" then some (Json.num 40)
  else if level = "info" then some (Json.num 30)
  else if level = "debug" then some (Json.num 20)
  else if level = "__proto__" then some (Json.obj [])
  else if level ∈ objectPrototypeMembers then some (Json.fn level)
  else none

/-- The severity translation expression `levelMap[level] || level` of the
`printf` formatter: a defined, truthy property value (a found numeric
code, or an inherited `Object.prototype` member) is used as is;
otherwise the input string passes through unchanged. -/
def severityCode (level : String) : Json :=
  match levelMap level with
  | some v => if jsTruthy v then v else Json.str level
  | none => Json.str level

/-- `const serviceName = process.env.CI_PROJECT_NAME || "unknown";`
JavaScript `||` falls back on any falsy value, i.e. on an unset variable
and on the empty string. -/
def serviceName (envCIProjectName : Option String) : String :=
  match envCIProjectName with
  | some s => if s = "" then "unknown" else s
  | none => "unknown"

/-- `const logLevel = (process.env.LOG_LEVEL as LogLevel) || "info";`
with the same JavaScript `||` falsy fallback. -/
def logLevel (envLogLevel : Option String) : String :=
  match envLogLevel with
  | some s => if s = "" then "info" else s
  | none => "info"

/-- The typed log-call payload `StdLogObject` of `src/index.ts`: a
message and a metadata envelope.  The envelope is an open-ended object
whose contract (static, via the TypeScript type) asks for `trace_id` and
`stack`; we model it as the ordered key/value list of the object the
caller passes, with no restriction, since the runtime code imposes
none. -/
structure StdLogObject where
  message : String
  meta_data : List (String × Json)

/-- The process-wide, read-once configuration and host identity the
formatter consumes: the service label (`format.label`), the hostname and
pid (read from the `os`/`process` collaborators), and the minimum level
passed to `createLogger`. -/
structure LoggerConfig where
  serviceLabel : String
  hostname : String
  pid : Nat
  minLevel : String

/-- The field list built by the `format.printf` callback of the winston
logger in `src/index.ts` (lines 59-66): an object literal with the
reserved fields `name`, `hostname`, `pid`, `level`, `msg`, `time`
followed by the spread `...meta` of the remaining properties of the
info object, evaluated with JavaScript last-write-wins semantics. -/
def printfFields (label hostname : String) (pid : Nat)
    (timestamp level message : String) (meta : List (String × Json)) :
    List (String × Json) :=
  jsObj ([("name", Json.str label), ("hostname", Json.str hostname),
    ("pid", Json.num pid), ("level", severityCode level),
    ("msg", Json.str message), ("time", Json.str timestamp)] ++ meta)

/-- The full `format.printf` callback: build the record fields and
`JSON.stringify` them into one line. -/
def printfFormat (label hostname : String) (pid : Nat)
    (timestamp level message : String) (meta : List (String × Json)) :
    String :=
  stringify (Json.obj (printfFields label hostname pid timestamp level message meta))

/-- Modelled from the spec: the numeric severity order of the four level
names, error highest (spec section 3); used only to compare a call's
level against the configured minimum. -/
def severityRank (level : String) : Nat :=
  if level = "error" then 3
  else if level = "warn" then 2
  else if level = "info" then 1
  else 0

/-- Modelled from the spec: the minimum-level threshold dispatch of
section 4.3.  The repository delegates this to the winston dependency
through the `level` option of `createLogger`; the source under `src/`
only supplies the threshold value.  Calls at or above the configured
minimum severity are formatted and emitted; calls below are dropped. -/
def shouldEmit (minLevel level : String) : Bool :=
  severityRank minLevel ≤ severityRank level

/-- The `logWrapper` entry point of `src/index.ts` (lines 73-75)
composed with the winston pipeline: winston merges the passed object
into the info object (so `message` and `meta_data` become its
properties), `format.label` and `format.timestamp` add `label` and
`timestamp`, the threshold drops sub-minimum calls, and the `printf`
callback destructures `\x7btimestamp, level, message, label, ...meta\x7d`,
leaving `meta = \x7bmeta_data\x7d`.  The wrapper itself performs no
runtime validation of the metadata.  Returns the emitted line, or `none`
when the call is below the threshold. -/
def logWrapper (cfg : LoggerConfig) (timestamp level : String)
    (logObject : StdLogObject) : Option String :=
  if shouldEmit cfg.minLevel level then
    some (printfFormat cfg.serviceLabel cfg.hostname cfg.pid timestamp level
      logObject.message [("meta_data", Json.obj logObject.meta_data)])
  else none

/-- `logger.info` of the public typed interface. -/
def Logger.info (cfg : LoggerConfig) (timestamp : String)
    (logObject : StdLogObject) : Option String :=
  logWrapper cfg timestamp "info" logObject

/-- `logger.error` of the public typed interface. -/
def Logger.error (cfg : LoggerConfig) (timestamp : String)
    (logObject : StdLogObject) : Option String :=
  logWrapper cfg timestamp "error" logObject

/-- `logger.warn` of the public typed interface. -/
def Logger.warn (cfg : LoggerConfig) (timestamp : String)
    (logObject : StdLogObject) : Option String :=
  logWrapper cfg timestamp "warn" logObject

/-- `logger.debug` of the public typed interface. -/
def Logger.debug (cfg : LoggerConfig) (timestamp : String)
    (logObject : StdLogObject) : Option String :=
  logWrapper cfg timestamp "debug" logObject

/-- A run of `n` spaces, for the two-space indentation of
`JSON.stringify(meta, null, 2)`. -/
def jsonIndent (n : Nat) : String :=
  String.mk (List.replicate n ' ')

mutual
/-- `JSON.stringify(v, null, 2)`: the pretty, two-space-indented
serialization used by the console format for non-empty metadata.  An
object all of whose properties are function-valued serializes to the
bare empty braces, and a bare function yields no JSON text (that branch
is unreachable here: the console format serializes the metadata
object). -/
def stringifyIndent (ind : Nat) : Json → String
  | .str s => "\"" ++ jsonEscape s ++ "\""
  | .num n => toString n
  | .fn _ => ""
  | .obj kvs =>
      if kvs.any (fun p => jsonSerializableProp p.2) then
        "\x7b\n" ++ stringifyIndentFields (ind + 2) kvs ++ "\n"
          ++ jsonIndent ind ++ "\x7d"
      else "\x7b\x7d"

/-- Field list of the pretty serialization, one `"key": value` per line
at the given indentation, omitting function-valued properties as
`JSON.stringify` does. -/
def stringifyIndentFields (ind : Nat) : List (String × Json) → String
  | [] => ""
  | (k, v) :: rest =>
      if jsonSerializableProp v then
        if rest.any (fun p => jsonSerializableProp p.2) then
          jsonIndent ind ++ "\"" ++ jsonEscape k ++ "\": " ++ stringifyIndent ind v
            ++ ",\n" ++ stringifyIndentFields ind rest
        else
          jsonIndent ind ++ "\"" ++ jsonEscape k ++ "\": " ++ stringifyIndent ind v
      else stringifyIndentFields ind rest
end

/-- The `consoleFormat` printf callback of the development-mode console
transport (`src/unnamed/part_000`, lines 148-153): pretty-print the
residual metadata only when it has at least one key, then emit the
template literal `level ++ ": " ++ message ++ " " ++ metaString`. -/
def consoleFormat (level message : String) (meta : List (String × Json)) :
    String :=
  let metaString := if meta.length ≠ 0
    then stringifyIndent 0 (Json.obj meta)
    else ""
  level ++ ": " ++ message ++ " " ++ metaString

/-- Through the typed interface the residual metadata reaching the
`printf` callback is exactly the single `meta_data` property, so the
spread appends it after the six reserved fields and overrides nothing. -/
theorem printfFields_typed (label hostname : String) (pid : Nat)
    (timestamp level message : String) (m : List (String × Json)) :
    printfFields label hostname pid timestamp level message
        [("meta_data", Json.obj m)] =
      [("name", Json.str label), ("hostname", Json.str hostname),
       ("pid", Json.num pid), ("level", severityCode level),
       ("msg", Json.str message), ("time", Json.str timestamp),
       ("meta_data", Json.obj m)] := by
  simp [printfFields, jsObj, jsInsert]

/-- C1: for every one of the four recognized level names, the
level-mapping function returns the exact fixed numeric code:
"error" maps to 50, "warn" to 40, "info" to 30, and "debug" to 20. -/
theorem severityCode_fixed_codes :
    severityCode "error" = Json.num 50 ∧
    severityCode "warn" = Json.num 40 ∧
    severityCode "info" = Json.num 30 ∧
    severityCode "debug" = Json.num 20 :=
  ⟨rfl, rfl, rfl, rfl⟩

/-- C3 counterexample: the passthrough is not universal.  For the input
"toString" — not one of the four level names — the property access
`levelMap["toString"]` walks the prototype chain and yields the
inherited `Object.prototype.toString`, a truthy function, so
`levelMap[level] || level` returns that member, not the input string. -/
theorem severityCode_inherited_member :
    severityCode "toString" = Json.fn "toString" ∧
    severityCode "toString" ≠ Json.str "toString" :=
  ⟨rfl, fun h => Json.noConfusion h⟩

/-- C3 amended: for every input string that is neither one of the four
lowercase level names nor the name of an inherited `Object.prototype`
member, the level-mapping function returns the input string unchanged
and raises no error (the function is total); in particular other casing
such as "ERROR" and unknown names such as "trace" pass through.  For
`Object.prototype` member names such as "toString" the prototype-chain
lookup instead yields the truthy inherited member. -/
theorem severityCode_passthrough (level : String)
    (h : level ≠ "error" ∧ level ≠ "warn" ∧ level ≠ "info" ∧ level ≠ "debug")
    (hp : level ∉ objectPrototypeMembers) :
    severityCode level = Json.str level := by
  obtain ⟨h1, h2, h3, h4⟩ := h
  have h5 : level ≠ "__proto__" := by
    intro he
    exact hp (by rw [he]; decide)
  simp [severityCode, levelMap, h1, h2, h3, h4, h5, hp]

/-- Witness for C3: the other-cased "ERROR" and the unknown "trace" are
outside both the level table and the inherited member names, and both
pass through unchanged. -/
theorem severityCode_passthrough_witness :
    ("ERROR" ≠ "error" ∧ "ERROR" ≠ "warn" ∧ "ERROR" ≠ "info" ∧ "ERROR" ≠ "debug") ∧
    "ERROR" ∉ objectPrototypeMembers ∧
    severityCode "ERROR" = Json.str "ERROR" ∧
    severityCode "trace" = Json.str "trace" :=
  ⟨by decide, by decide,
   severityCode_passthrough "ERROR" (by decide) (by decide),
   severityCode_passthrough "trace" (by decide) (by decide)⟩

/-- C2: in structured mode, an info-level call with message "Hello info"
and metadata trace_id "123", stack "NODE", wret "wert" under service
label "svc" produces a single JSON line deserializing to the record with
name "svc", the hostname, the pid, level 30, msg "Hello info", the
timestamp, and the whole caller metadata nested under `meta_data`; at a
concrete hostname, pid and timestamp the line is the exact serialization
shown, and it contains no newline. -/
theorem structured_end_to_end (hostname timestamp : String) (pid : Nat) :
    Logger.info ⟨"svc", hostname, pid, "info"⟩ timestamp
        ⟨"Hello info", [("trace_id", Json.str "123"), ("stack", Json.str "NODE"),
          ("wret", Json.str "wert")]⟩ =
      some (stringify (Json.obj
        [("name", Json.str "svc"), ("hostname", Json.str hostname),
         ("pid", Json.num pid), ("level", Json.num 30),
         ("msg", Json.str "Hello info"), ("time", Json.str timestamp),
         ("meta_data", Json.obj [("trace_id", Json.str "123"),
           ("stack", Json.str "NODE"), ("wret", Json.str "wert")])])) ∧
    Logger.info ⟨"svc", "host", 1, "info"⟩ "t"
        ⟨"Hello info", [("trace_id", Json.str "123"), ("stack", Json.str "NODE"),
          ("wret", Json.str "wert")]⟩ =
      some "\x7b\"name\":\"svc\",\"hostname\":\"host\",\"pid\":1,\"level\":30,\"msg\":\"Hello info\",\"time\":\"t\",\"meta_data\":\x7b\"trace_id\":\"123\",\"stack\":\"NODE\",\"wret\":\"wert\"\x7d\x7d" ∧
    '\n' ∉ ("\x7b\"name\":\"svc\",\"hostname\":\"host\",\"pid\":1,\"level\":30,\"msg\":\"Hello info\",\"time\":\"t\",\"meta_data\":\x7b\"trace_id\":\"123\",\"stack\":\"NODE\",\"wret\":\"wert\"\x7d\x7d").data := by
  refine ⟨?_, rfl, by decide⟩
  show some (printfFormat "svc" hostname pid timestamp "info" "Hello info"
    [("meta_data", Json.obj [("trace_id", Json.str "123"),
      ("stack", Json.str "NODE"), ("wret", Json.str "wert")])]) = _
  unfold printfFormat
  rw [printfFields_typed]
  rfl

/-- C4 counterexample: a log call whose metadata lacks both `trace_id`
and `stack` is not rejected — `logWrapper` performs no validation and
the record is emitted anyway. -/
theorem missing_metadata_emitted :
    (logWrapper ⟨"svc", "host", 1, "info"⟩ "t" "info"
        ⟨"Hello", [("wret", Json.str "wert")]⟩).isSome = true ∧
    List.lookup "trace_id" [("wret", Json.str "wert")] = (none : Option Json) ∧
    List.lookup "stack" [("wret", Json.str "wert")] = (none : Option Json) :=
  ⟨rfl, rfl, rfl⟩

/-- C4 amended: the mandatory-metadata contract is enforced only by the
static `StdLogObject` type; at runtime whether a call emits a record
depends solely on the level threshold, never on the presence of
`trace_id` or `stack` — no call is rejected for missing metadata. -/
theorem emission_ignores_metadata_contract (cfg : LoggerConfig)
    (timestamp level : String) (obj : StdLogObject) :
    (logWrapper cfg timestamp level obj).isSome = shouldEmit cfg.minLevel level := by
  unfold logWrapper
  by_cases h : shouldEmit cfg.minLevel level <;> simp [h]

/-- C5: with minimum level "info", a debug-level call produces zero
output lines while an error-level call still produces exactly one. -/
theorem threshold_filtering (label host timestamp : String) (pid : Nat)
    (obj : StdLogObject) :
    logWrapper ⟨label, host, pid, "info"⟩ timestamp "debug" obj = none ∧
    ∃ line, logWrapper ⟨label, host, pid, "info"⟩ timestamp "error" obj = some line :=
  ⟨rfl,
   ⟨printfFormat label host pid timestamp "error" obj.message
      [("meta_data", Json.obj obj.meta_data)], rfl⟩⟩

/-- C6: for every log call whose metadata contains a key literally named
"msg", the resulting record's `msg` field equals the original message,
and every reserved field (`name`, `hostname`, `pid`, `level`, `msg`,
`time`) keeps its own value, never a caller-supplied one: the caller
metadata is nested under `meta_data` and cannot collide. -/
theorem reserved_msg_precedence (cfg : LoggerConfig) (timestamp level : String)
    (obj : StdLogObject) (h : "msg" ∈ obj.meta_data.map Prod.fst) :
    (printfFields cfg.serviceLabel cfg.hostname cfg.pid timestamp level
        obj.message [("meta_data", Json.obj obj.meta_data)]).lookup "msg"
        = some (Json.str obj.message) ∧
    (printfFields cfg.serviceLabel cfg.hostname cfg.pid timestamp level
        obj.message [("meta_data", Json.obj obj.meta_data)]).lookup "name"
        = some (Json.str cfg.serviceLabel) ∧
    (printfFields cfg.serviceLabel cfg.hostname cfg.pid timestamp level
        obj.message [("meta_data", Json.obj obj.meta_data)]).lookup "hostname"
        = some (Json.str cfg.hostname) ∧
    (printfFields cfg.serviceLabel cfg.hostname cfg.pid timestamp level
        obj.message [("meta_data", Json.obj obj.meta_data)]).lookup "pid"
        = some (Json.num cfg.pid) ∧
    (printfFields cfg.serviceLabel cfg.hostname cfg.pid timestamp level
        obj.message [("meta_data", Json.obj obj.meta_data)]).lookup "time"
        = some (Json.str timestamp) ∧
    (printfFields cfg.serviceLabel cfg.hostname cfg.pid timestamp level
        obj.message [("meta_data", Json.obj obj.meta_data)]).lookup "level"
        = some (severityCode level) := by
  rw [printfFields_typed]
  exact ⟨rfl, rfl, rfl, rfl, rfl, rfl⟩

/-- Witness for C6 at a concrete call whose metadata does contain a
"msg" key: the record's `msg` field is still the original message. -/
theorem reserved_msg_precedence_witness :
    "msg" ∈ ([("msg", Json.str "evil"), ("trace_id", Json.str "1"),
        ("stack", Json.str "NODE")].map Prod.fst) ∧
    (printfFields "svc" "host" 9 "t" "info" "real message"
        [("meta_data", Json.obj [("msg", Json.str "evil"),
          ("trace_id", Json.str "1"), ("stack", Json.str "NODE")])]).lookup "msg"
      = some (Json.str "real message") :=
  ⟨by decide,
   (reserved_msg_precedence ⟨"svc", "host", 9, "info"⟩ "t" "info"
      ⟨"real message", [("msg", Json.str "evil"), ("trace_id", Json.str "1"),
        ("stack", Json.str "NODE")]⟩ (by decide)).1⟩

/-- C7: in console mode with empty extra metadata the emitted line is
exactly `level ++ ": " ++ message ++ " "` — no trailing braces; with
non-empty metadata the pretty-printed metadata is appended. -/
theorem consoleFormat_empty_meta (level message : String) :
    consoleFormat level message [] = level ++ ": " ++ message ++ " " ∧
    ∀ (kv : String × Json) (rest : List (String × Json)),
      consoleFormat level message (kv :: rest)
        = level ++ ": " ++ message ++ " "
          ++ stringifyIndent 0 (Json.obj (kv :: rest)) := by
  constructor
  · show level ++ ": " ++ message ++ " " ++ "" = _
    simp
  · intro kv rest
    rfl

/-- C8: with no `LOG_LEVEL` in the environment the minimum level
defaults to "info", and with no `CI_PROJECT_NAME` the service label
defaults to the sentinel "unknown". -/
theorem default_configuration :
    logLevel none = "info" ∧ serviceName none = "unknown" :=
  ⟨rfl, rfl⟩

/-- C9: the structured-mode formatter is deterministic — two invocations
with identical label, hostname, pid, timestamp, level, message and
metadata produce character-for-character identical serialized lines. -/
theorem structured_formatter_deterministic
    (label₁ label₂ host₁ host₂ : String) (pid₁ pid₂ : Nat)
    (time₁ time₂ level₁ level₂ msg₁ msg₂ : String)
    (meta₁ meta₂ : List (String × Json))
    (hlabel : label₁ = label₂) (hhost : host₁ = host₂) (hpid : pid₁ = pid₂)
    (htime : time₁ = time₂) (hlevel : level₁ = level₂) (hmsg : msg₁ = msg₂)
    (hmeta : meta₁ = meta₂) :
    printfFormat label₁ host₁ pid₁ time₁ level₁ msg₁ meta₁
      = printfFormat label₂ host₂ pid₂ time₂ level₂ msg₂ meta₂ := by
  subst hlabel hhost hpid htime hlevel hmsg hmeta
  rfl

/-- Witness for C9 at concrete inputs. -/
theorem structured_formatter_deterministic_witness :
    printfFormat "svc" "host" 1 "t" "warn" "m" [("meta_data", Json.obj [])]
      = printfFormat "svc" "host" 1 "t" "warn" "m" [("meta_data", Json.obj [])] :=
  structured_formatter_deterministic "svc" "svc" "host" "host" 1 1 "t" "t"
    "warn" "warn" "m" "m" [("meta_data", Json.obj [])] [("meta_data", Json.obj [])]
    rfl rfl rfl rfl rfl rfl rfl

/-- C10: every record emitted through the typed interface carries the
caller metadata under the single `meta_data` key: the line is the
serialization of exactly the seven reserved-plus-meta_data fields, in
order, so a caller metadata key can never occupy or override a reserved
top-level field even though the spread is applied last. -/
theorem typed_interface_record_shape (cfg : LoggerConfig)
    (timestamp level : String) (obj : StdLogObject) (line : String)
    (h : logWrapper cfg timestamp level obj = some line) :
    line = stringify (Json.obj
      [("name", Json.str cfg.serviceLabel), ("hostname", Json.str cfg.hostname),
       ("pid", Json.num cfg.pid), ("level", severityCode level),
       ("msg", Json.str obj.message), ("time", Json.str timestamp),
       ("meta_data", Json.obj obj.meta_data)]) ∧
    (printfFields cfg.serviceLabel cfg.hostname cfg.pid timestamp level
        obj.message [("meta_data", Json.obj obj.meta_data)]).map Prod.fst
      = ["name", "hostname", "pid", "level", "msg", "time", "meta_data"] := by
  unfold logWrapper at h
  split at h
  · injection h with h
    subst h
    refine ⟨?_, ?_⟩
    · unfold printfFormat
      rw [printfFields_typed]
    · rw [printfFields_typed]
      rfl
  · exact absurd h (by simp)

/-- Witness for C10: a concrete emitted warn-level record has the
documented shape and exactly the seven top-level keys. -/
theorem typed_interface_record_shape_witness :
    logWrapper ⟨"svc", "h", 2, "info"⟩ "t" "warn" ⟨"m", []⟩ =
      some "\x7b\"name\":\"svc\",\"hostname\":\"h\",\"pid\":2,\"level\":40,\"msg\":\"m\",\"time\":\"t\",\"meta_data\":\x7b\x7d\x7d" ∧
    ("\x7b\"name\":\"svc\",\"hostname\":\"h\",\"pid\":2,\"level\":40,\"msg\":\"m\",\"time\":\"t\",\"meta_data\":\x7b\x7d\x7d"
      = stringify (Json.obj
        [("name", Json.str "svc"), ("hostname", Json.str "h"),
         ("pid", Json.num 2), ("level", severityCode "warn"),
         ("msg", Json.str "m"), ("time", Json.str "t"),
         ("meta_data", Json.obj [])]) ∧
    (printfFields "svc" "h" 2 "t" "warn" "m" [("meta_data", Json.obj [])]).map Prod.fst
      = ["name", "hostname", "pid", "level", "msg", "time", "meta_data"]) :=
  ⟨rfl, typed_interface_record_shape ⟨"svc", "h", 2, "info"⟩ "t" "warn" ⟨"m", []⟩ _ rfl⟩
